import Mathlib

/-!
Shallow embedding of the llm-gateway model-resolution and fallback-dispatch
core (package `proxy`, `Proxy.ChatCompletionsHandler`), together with the
error values of package `errors`, the usage-counter updates, the dummy
provider (`dummy.DummyProvider.ChatCompletion`) and the OpenAI-compatible
HTTP adapter (`client.DoRequest` and
`openai_compatible.OpenAICompatibleProvider.ChatCompletion`).

Go machine integers are embedded as `Int`; Go maps are embedded as
functions into `Option`; a Go `(value, error)` pair that follows the usual
exclusivity convention (all adapters in this repository do) is embedded as
`Except`.  The caller-visible fields of `ChatCompletionRequest` other than
`model` and `messages` are abstracted into a type parameter `α`, so that
the shallow-copy-per-attempt behaviour is stated over all of them at once.
Adapter errors are a type parameter `ε`: the dispatcher only tests them
for presence, never inspects them.
-/

set_option autoImplicit false

namespace LlmGateway

/-- Embeds `errors.Error` (src/internal/errors/errors.go): message, HTTP
status and optional wrapped details. -/
structure Errors.Error where
  message : String
  status : Nat
  details : Option String := none
deriving DecidableEq, Repr

/-- Embeds `errors.Error.WithMessage`: replace the message, keep the rest. -/
def Errors.Error.withMessage (e : Errors.Error) (message : String) : Errors.Error :=
  { e with message := message }

/-- Embeds `errors.ErrNotFound` (status `http.StatusNotFound` = 404). -/
def Errors.ErrNotFound : Errors.Error :=
  { message := "Resource not found", status := 404 }

/-- Embeds `errors.ErrInternal` (status `http.StatusInternalServerError` = 500). -/
def Errors.ErrInternal : Errors.Error :=
  { message := "Internal server error", status := 500 }

/-- A chat message (role and textual content), as used by the request
messages list and by the dummy provider's fabricated choice. -/
structure ChatMessage where
  role : String
  content : String
deriving DecidableEq, Repr

/-- Embeds `api.ChatCompletionRequest` as seen by the dispatcher: the
`model` field (read and rewritten), the `messages` list (its length is used
by the dummy provider), and all remaining fields bundled into `other : α`
(carried along unchanged by the shallow copy). -/
structure ChatCompletionRequest (α : Type) where
  model : String
  messages : List ChatMessage
  other : α
deriving DecidableEq, Repr

/-- Embeds `api.Usage`: prompt, completion and total token counts (Go `int`). -/
structure Usage where
  promptTokens : Int
  completionTokens : Int
  totalTokens : Int
deriving DecidableEq, Repr

/-- Embeds `api.ChatCompletionChoice`: index, message, finish reason. -/
structure ChatCompletionChoice where
  index : Int
  message : ChatMessage
  finishReason : String
deriving DecidableEq, Repr

/-- Embeds `api.ChatCompletionResponse`: the fields the dispatcher and the
dummy provider touch. -/
structure ChatCompletionResponse where
  id : String
  object : String
  created : Int
  model : String
  choices : List ChatCompletionChoice
  usage : Usage
deriving DecidableEq, Repr

/-- Embeds `config.ModelConfig` (src/internal/config/config.go): identifier,
display name, provider identifier, ordered fallback list. -/
structure ModelConfig where
  id : String
  name : String
  provider : String
  fallback : List String
deriving DecidableEq, Repr

/-- The slice of `config.Config` the dispatcher reads: the model list. -/
structure Config where
  models : List ModelConfig
deriving DecidableEq, Repr

/-- Embeds `provider.Provider`: one capability, `ChatCompletion`.
`ε` is the adapter's error type, never inspected by the dispatcher. -/
structure Provider (α ε : Type) where
  chatCompletion : ChatCompletionRequest α → Except ε ChatCompletionResponse

/-- Embeds the `Proxy` struct: configuration plus the provider registry
(a Go map, embedded as a function into `Option`). -/
structure Proxy (α ε : Type) where
  cfg : Config
  providers : String → Option (Provider α ε)

/-- The three process-wide Prometheus counter vectors of package `proxy`,
each keyed by the (model, provider) label pair. -/
structure Counters where
  promptTokensTotal : String → String → Int
  completionTokensTotal : String → String → Int
  totalTokensTotal : String → String → Int

/-- Embeds `CounterVec.WithLabelValues(model, provider).Add(v)`: add `v` at
one (model, provider) cell, leave every other cell alone. -/
def counterAdd (vec : String → String → Int) (model provider : String) (v : Int) :
    String → String → Int :=
  fun m p => if m = model ∧ p = provider then vec m p + v else vec m p

/-- Embeds the metric-increment block of `ChatCompletionsHandler`: each of
the three counters is incremented at (`resp.Model`, `providerName`) by the
corresponding token count, guarded by that count being `> 0`. -/
def Counters.record (c : Counters) (resp : ChatCompletionResponse) (providerName : String) :
    Counters :=
  { promptTokensTotal :=
      if resp.usage.promptTokens > 0 then
        counterAdd c.promptTokensTotal resp.model providerName resp.usage.promptTokens
      else c.promptTokensTotal
  , completionTokensTotal :=
      if resp.usage.completionTokens > 0 then
        counterAdd c.completionTokensTotal resp.model providerName resp.usage.completionTokens
      else c.completionTokensTotal
  , totalTokensTotal :=
      if resp.usage.totalTokens > 0 then
        counterAdd c.totalTokensTotal resp.model providerName resp.usage.totalTokens
      else c.totalTokensTotal }

/-- One adapter invocation observed during a dispatch: the candidate model
identifier the loop was at, the provider map key used, and the exact
request value handed to the adapter. -/
structure Attempt (α : Type) where
  modelID : String
  providerName : String
  request : ChatCompletionRequest α
deriving DecidableEq, Repr

/-- The observable outcome of one dispatch call: the ordered adapter
invocations, the final state of the usage counters, and the value returned
to the caller. -/
structure DispatchResult (α : Type) where
  attempts : List (Attempt α)
  counters : Counters
  result : Except Errors.Error ChatCompletionResponse

/-- Embeds the candidate loop of `ChatCompletionsHandler` (part_004 of the
proxy package): for each candidate model identifier in order, look the
model up in `cfg.Models` (first match wins, as the Go `for`/`break` scan
does), look its provider up in the registry, skip on either miss, otherwise
invoke the adapter on a copy of the request with the model field rewritten
to the config's display name; stop at the first success, recording usage;
fall through to the generic internal error when the list is exhausted. -/
def runCandidates {α ε : Type} (p : Proxy α ε) (req : ChatCompletionRequest α)
    (counters : Counters) : List String → DispatchResult α
  | [] =>
    { attempts := []
    , counters := counters
    , result := .error (Errors.ErrInternal.withMessage "failed to get completion from any provider") }
  | modelID :: rest =>
    match p.cfg.models.find? (fun m => m.id == modelID) with
    | none => runCandidates p req counters rest
    | some currentModelConfig =>
      match p.providers currentModelConfig.provider with
      | none => runCandidates p req counters rest
      | some llmProvider =>
        match llmProvider.chatCompletion { req with model := currentModelConfig.name } with
        | .error _ =>
          let r := runCandidates p req counters rest
          { r with attempts :=
              { modelID := modelID
              , providerName := currentModelConfig.provider
              , request := { req with model := currentModelConfig.name } } :: r.attempts }
        | .ok resp =>
          { attempts :=
              [{ modelID := modelID
               , providerName := currentModelConfig.provider
               , request := { req with model := currentModelConfig.name } }]
          , counters := counters.record resp currentModelConfig.provider
          , result := .ok resp }

/-- Embeds `Proxy.ChatCompletionsHandler`: look the requested model up in
the catalog; absent means the not-found error with no attempts; present
means running the candidate list `req.Model :: modelConfig.Fallback`. -/
def chatCompletionsHandler {α ε : Type} (p : Proxy α ε) (req : ChatCompletionRequest α)
    (counters : Counters) : DispatchResult α :=
  match p.cfg.models.find? (fun m => m.id == req.model) with
  | none =>
    { attempts := []
    , counters := counters
    , result := .error (Errors.ErrNotFound.withMessage "model not found in config") }
  | some modelConfig =>
    runCandidates p req counters (req.model :: modelConfig.fallback)

/-- Resolution of one candidate identifier: the model config found in the
catalog together with the provider found in the registry, when both exist. -/
def resolveModel {α ε : Type} (p : Proxy α ε) (modelID : String) :
    Option (ModelConfig × Provider α ε) :=
  match p.cfg.models.find? (fun m => m.id == modelID) with
  | none => none
  | some cfg =>
    match p.providers cfg.provider with
    | none => none
    | some prov => some (cfg, prov)

/-- A candidate identifier that cannot produce a success: whenever it
resolves, its adapter returns an error on the attempt request. -/
def attemptFails {α ε : Type} (p : Proxy α ε) (req : ChatCompletionRequest α)
    (modelID : String) : Prop :=
  ∀ cfg prov, resolveModel p modelID = some (cfg, prov) →
    ∃ e, prov.chatCompletion { req with model := cfg.name } = .error e

/-- Remap a provider's adapter error values, leaving responses alone. -/
def Provider.mapError {α ε ε2 : Type} (f : ε → ε2) (prov : Provider α ε) : Provider α ε2 :=
  { chatCompletion := fun r => (prov.chatCompletion r).mapError f }

/-- Remap the adapter error values of every provider in the registry. -/
def Proxy.mapError {α ε ε2 : Type} (f : ε → ε2) (p : Proxy α ε) : Proxy α ε2 :=
  { cfg := p.cfg
  , providers := fun n => (p.providers n).map (Provider.mapError f) }

/-- The self-referential catalog entry of the termination scenario: model
"X" whose fallback list is exactly ["X"]. -/
def cfgX : ModelConfig :=
  { id := "X", name := "X", provider := "pX", fallback := ["X"] }

/-- A proxy whose catalog is exactly [cfgX] and whose registry maps only
"pX", to the given provider. -/
def proxyX {α ε : Type} (prov : Provider α ε) : Proxy α ε :=
  { cfg := { models := [cfgX] }
  , providers := fun n => if n = "pX" then some prov else none }

/-- Outcome of one upstream HTTP exchange: either the client transport
fails, or a status code and raw body come back. -/
inductive HttpOutcome where
  | netError (msg : String)
  | response (status : Nat) (body : String)
deriving DecidableEq, Repr

/-- The pieces of the outgoing HTTP request that `client.DoRequest` builds:
method, URL, headers and the encoded body. -/
structure HttpRequestData where
  method : String
  url : String
  headers : List (String × String)
  body : String
deriving DecidableEq, Repr

/-- Embeds `client.DoRequest` (src/internal/client/client.go): send the
request (the wire and the JSON codec are the `send`/`decode` parameters),
fail with the status code and raw body on any non-200 status, otherwise
decode the body, failing on a decode error. -/
def doRequest {ρ : Type} (send : HttpRequestData → HttpOutcome)
    (decode : String → Except String ρ) (method url : String)
    (headers : List (String × String)) (encodedBody : String) : Except String ρ :=
  match send { method := method, url := url, headers := headers, body := encodedBody } with
  | .netError m => .error ("failed to send http request: " ++ m)
  | .response status body =>
    if status ≠ 200 then
      .error ("API returned non-200 status: " ++ toString status ++ ", body: " ++ body)
    else
      match decode body with
      | .error e => .error ("failed to decode response body: " ++ e)
      | .ok r => .ok r

/-- Embeds the `OpenAICompatibleProvider` struct: name and connection
parameters. -/
structure OpenAICompatibleProvider where
  providerName : String
  apiKey : String
  apiUrl : String
deriving DecidableEq, Repr

/-- The headers `OpenAICompatibleProvider.ChatCompletion` sends:
Content-Type always, a bearer Authorization header when a key is set. -/
def OpenAICompatibleProvider.headers (op : OpenAICompatibleProvider) :
    List (String × String) :=
  if op.apiKey ≠ "" then
    [("Content-Type", "application/json"), ("Authorization", "Bearer " ++ op.apiKey)]
  else
    [("Content-Type", "application/json")]

/-- Embeds `OpenAICompatibleProvider.ChatCompletion`
(src/internal/provider/openai_compatible/openai_compatible.go): POST the
encoded request to `{apiUrl}/v1/chat/completions` via `DoRequest` and wrap
any failure in the provider-named message. -/
def OpenAICompatibleProvider.chatCompletion {α : Type} (op : OpenAICompatibleProvider)
    (send : HttpRequestData → HttpOutcome)
    (encode : ChatCompletionRequest α → String)
    (decode : String → Except String ChatCompletionResponse)
    (req : ChatCompletionRequest α) : Except String ChatCompletionResponse :=
  match doRequest send decode "POST" (op.apiUrl ++ "/v1/chat/completions")
      (OpenAICompatibleProvider.headers op) (encode req) with
  | .error e => .error (op.providerName ++ " chat completion failed: " ++ e)
  | .ok r => .ok r

/-- Embeds `DummyProvider.ChatCompletion` (part_001 / the dummy provider):
deterministically fabricates a completion, with prompt tokens equal to the
message count times 5, completion tokens 10, total their sum; the clock
readings used for the id and timestamp are parameters. -/
def dummyChatCompletion {α ε : Type} (nowNano nowSec : Int)
    (req : ChatCompletionRequest α) : Except ε ChatCompletionResponse :=
  let promptTokens : Int := (req.messages.length : Int) * 5
  let completionTokens : Int := 10
  let totalTokens : Int := promptTokens + completionTokens
  .ok
    { id := "dummy-cmpl-" ++ toString nowNano
    , object := "chat.completion"
    , created := nowSec
    , model := req.model
    , choices :=
        [{ index := 0
         , message := { role := "assistant", content := "Hello! This is a dummy response." }
         , finishReason := "stop" }]
    , usage :=
        { promptTokens := promptTokens
        , completionTokens := completionTokens
        , totalTokens := totalTokens } }

/-- The dummy provider as a registry entry. -/
def dummyProvider {α ε : Type} (nowNano nowSec : Int) : Provider α ε :=
  { chatCompletion := dummyChatCompletion nowNano nowSec }

/-- A one-message request for the primary test model, mirroring the repo's
proxy test fixture. -/
def reqGpt : ChatCompletionRequest Unit :=
  { model := "gpt-4.1", messages := [{ role := "user", content := "test" }], other := () }

/-- A request for a model that no catalog entry carries. -/
def reqUnknown : ChatCompletionRequest Unit :=
  { model := "unknown-model", messages := [{ role := "user", content := "test" }], other := () }

/-- Catalog entry of the primary test model, with one fallback. -/
def cfgGpt : ModelConfig :=
  { id := "gpt-4.1", name := "gpt-4.1", provider := "openai", fallback := ["gemini-2.5-pro"] }

/-- Catalog entry of the fallback test model. -/
def cfgGem : ModelConfig :=
  { id := "gemini-2.5-pro", name := "gemini-2.5-pro", provider := "gemini", fallback := [] }

/-- The two-model test catalog. -/
def testModels : List ModelConfig := [cfgGpt, cfgGem]

/-- Canned response of the primary test provider. -/
def respOai : ChatCompletionResponse :=
  { id := "openai-test-id", object := "chat.completion", created := 0, model := "gpt-4.1"
  , choices := [], usage := { promptTokens := 1, completionTokens := 1, totalTokens := 2 } }

/-- Canned response of the fallback test provider. -/
def respGem : ChatCompletionResponse :=
  { id := "gemini-test-id", object := "chat.completion", created := 0, model := "gemini-2.5-pro"
  , choices := [], usage := { promptTokens := 2, completionTokens := 2, totalTokens := 4 } }

/-- A provider that answers every request with the given response. -/
def okProv (resp : ChatCompletionResponse) : Provider Unit String :=
  { chatCompletion := fun _ => .ok resp }

/-- A provider that fails every request. -/
def failProv : Provider Unit String :=
  { chatCompletion := fun _ => .error "upstream failure" }

/-- A registry binding "openai" and "gemini" to the given providers. -/
def providersOf (po pg : Provider Unit String) : String → Option (Provider Unit String) :=
  fun n => if n = "openai" then some po else if n = "gemini" then some pg else none

/-- Proxy whose primary provider succeeds. -/
def proxyPrimaryOk : Proxy Unit String :=
  { cfg := { models := testModels }, providers := providersOf (okProv respOai) (okProv respGem) }

/-- Proxy whose primary provider fails and whose fallback provider succeeds. -/
def proxyFallback : Proxy Unit String :=
  { cfg := { models := testModels }, providers := providersOf failProv (okProv respGem) }

/-- Proxy in which every provider fails. -/
def proxyAllFail : Proxy Unit String :=
  { cfg := { models := testModels }, providers := providersOf failProv failProv }

/-- All-zero counter state. -/
def zeroCounters : Counters :=
  { promptTokensTotal := fun _ _ => 0
  , completionTokensTotal := fun _ _ => 0
  , totalTokensTotal := fun _ _ => 0 }

/-- Catalog entry routed to the dummy provider. -/
def cfgDummy : ModelConfig :=
  { id := "dummy-model", name := "dummy-model", provider := "dummy", fallback := [] }

/-- A zero-message request for the dummy model. -/
def reqDummy : ChatCompletionRequest Unit :=
  { model := "dummy-model", messages := [], other := () }

/-- Proxy wired to the dummy provider (clock readings fixed at 0). -/
def proxyDummy : Proxy Unit String :=
  { cfg := { models := [cfgDummy] }
  , providers := fun n => if n = "dummy" then some (dummyProvider 0 0) else none }

/-- HTTP adapter fixture: the provider under test. -/
def opTest : OpenAICompatibleProvider :=
  { providerName := "test-provider", apiKey := "test-api-key", apiUrl := "http://upstream" }

/-- An upstream that always answers 500 with a plain-text body. -/
def send500 : HttpRequestData → HttpOutcome :=
  fun _ => .response 500 "Internal Server Error"

/-- An upstream that always answers 200 with a body the decoder rejects. -/
def send200Bad : HttpRequestData → HttpOutcome :=
  fun _ => .response 200 "not json"

/-- A decoder that rejects everything. -/
def decodeFails : String → Except String ChatCompletionResponse :=
  fun _ => .error "invalid character"

/-- A trivial request encoder for the fixtures. -/
def encodeTrivial : ChatCompletionRequest Unit → String :=
  fun _ => "encoded"

/-- The primary attempt the primary-success proxy records. -/
def attemptGpt : Attempt Unit :=
  { modelID := reqGpt.model, providerName := cfgGpt.provider
  , request := { reqGpt with model := cfgGpt.name } }

section Lemmas

variable {α ε : Type}

/-- Exhausted candidate list: the generic internal error, counters untouched. -/
theorem runCandidates_nil (p : Proxy α ε) (req : ChatCompletionRequest α) (c : Counters) :
    runCandidates p req c [] =
      { attempts := []
      , counters := c
      , result := .error (Errors.ErrInternal.withMessage "failed to get completion from any provider") } :=
  rfl

/-- A candidate absent from the catalog is skipped. -/
theorem runCandidates_cons_no_model (p : Proxy α ε) (req : ChatCompletionRequest α)
    (c : Counters) (modelID : String) (rest : List String)
    (hm : p.cfg.models.find? (fun m => m.id == modelID) = none) :
    runCandidates p req c (modelID :: rest) = runCandidates p req c rest := by
  simp only [runCandidates, hm]

/-- A candidate whose provider is absent from the registry is skipped. -/
theorem runCandidates_cons_no_provider (p : Proxy α ε) (req : ChatCompletionRequest α)
    (c : Counters) (modelID : String) (rest : List String) (cfg : ModelConfig)
    (hm : p.cfg.models.find? (fun m => m.id == modelID) = some cfg)
    (hp : p.providers cfg.provider = none) :
    runCandidates p req c (modelID :: rest) = runCandidates p req c rest := by
  simp only [runCandidates, hm, hp]

/-- A candidate whose adapter fails contributes one attempt and the loop
continues on the rest. -/
theorem runCandidates_cons_fail (p : Proxy α ε) (req : ChatCompletionRequest α)
    (c : Counters) (modelID : String) (rest : List String) (cfg : ModelConfig)
    (prov : Provider α ε) (e : ε)
    (hm : p.cfg.models.find? (fun m => m.id == modelID) = some cfg)
    (hp : p.providers cfg.provider = some prov)
    (hf : prov.chatCompletion { req with model := cfg.name } = .error e) :
    runCandidates p req c (modelID :: rest) =
      { runCandidates p req c rest with attempts :=
          { modelID := modelID
          , providerName := cfg.provider
          , request := { req with model := cfg.name } } :: (runCandidates p req c rest).attempts } := by
  simp only [runCandidates, hm, hp, hf]

/-- A candidate whose adapter succeeds ends the loop: one attempt, counters
recorded at (response model, provider), the response returned. -/
theorem runCandidates_cons_ok (p : Proxy α ε) (req : ChatCompletionRequest α)
    (c : Counters) (modelID : String) (rest : List String) (cfg : ModelConfig)
    (prov : Provider α ε) (resp : ChatCompletionResponse)
    (hm : p.cfg.models.find? (fun m => m.id == modelID) = some cfg)
    (hp : p.providers cfg.provider = some prov)
    (hs : prov.chatCompletion { req with model := cfg.name } = .ok resp) :
    runCandidates p req c (modelID :: rest) =
      { attempts :=
          [{ modelID := modelID
           , providerName := cfg.provider
           , request := { req with model := cfg.name } }]
      , counters := c.record resp cfg.provider
      , result := .ok resp } := by
  simp only [runCandidates, hm, hp, hs]

/-- The handler on a model absent from the catalog. -/
theorem chatCompletionsHandler_not_found (p : Proxy α ε) (req : ChatCompletionRequest α)
    (c : Counters) (hm : p.cfg.models.find? (fun m => m.id == req.model) = none) :
    chatCompletionsHandler p req c =
      { attempts := []
      , counters := c
      , result := .error (Errors.ErrNotFound.withMessage "model not found in config") } := by
  simp only [chatCompletionsHandler, hm]

/-- The handler on a model present in the catalog runs the candidate list
primary-then-fallbacks. -/
theorem chatCompletionsHandler_found (p : Proxy α ε) (req : ChatCompletionRequest α)
    (c : Counters) (cfg : ModelConfig)
    (hm : p.cfg.models.find? (fun m => m.id == req.model) = some cfg) :
    chatCompletionsHandler p req c = runCandidates p req c (req.model :: cfg.fallback) := by
  simp only [chatCompletionsHandler, hm]

/-- Whenever the candidate loop returns an error, it is the one generic
exhaustion error and the counters are exactly the input counters. -/
theorem runCandidates_error_eq (p : Proxy α ε) (req : ChatCompletionRequest α) (c : Counters) :
    ∀ (l : List String) (e : Errors.Error), (runCandidates p req c l).result = .error e →
      e = Errors.ErrInternal.withMessage "failed to get completion from any provider" ∧
      (runCandidates p req c l).counters = c := by
  intro l
  induction l with
  | nil =>
    intro e h
    rw [runCandidates_nil] at h
    simp only [Except.error.injEq] at h
    exact ⟨h.symm, rfl⟩
  | cons x rest ih =>
    intro e h
    cases hm : p.cfg.models.find? (fun m => m.id == x) with
    | none =>
      rw [runCandidates_cons_no_model p req c x rest hm] at h ⊢
      exact ih e h
    | some cfg =>
      cases hp : p.providers cfg.provider with
      | none =>
        rw [runCandidates_cons_no_provider p req c x rest cfg hm hp] at h ⊢
        exact ih e h
      | some prov =>
        cases hcall : prov.chatCompletion { req with model := cfg.name } with
        | error err =>
          rw [runCandidates_cons_fail p req c x rest cfg prov err hm hp hcall] at h ⊢
          exact ih e h
        | ok resp =>
          rw [runCandidates_cons_ok p req c x rest cfg prov resp hm hp hcall] at h
          simp at h

/-- Whenever the candidate loop returns a response, the attempts list ends
with the succeeding attempt, the counters are the input counters with that
response recorded under the succeeding attempt's provider, and that attempt
was built from a catalog hit with the display name rewritten in. -/
theorem runCandidates_ok_eq (p : Proxy α ε) (req : ChatCompletionRequest α) (c : Counters) :
    ∀ (l : List String) (resp : ChatCompletionResponse),
      (runCandidates p req c l).result = .ok resp →
      ∃ pre a, (runCandidates p req c l).attempts = pre ++ [a] ∧
        (runCandidates p req c l).counters = c.record resp a.providerName ∧
        ∃ cfg, p.cfg.models.find? (fun m => m.id == a.modelID) = some cfg ∧
          a.providerName = cfg.provider ∧ a.request = { req with model := cfg.name } := by
  intro l
  induction l with
  | nil =>
    intro resp h
    rw [runCandidates_nil] at h
    simp at h
  | cons x rest ih =>
    intro resp h
    cases hm : p.cfg.models.find? (fun m => m.id == x) with
    | none =>
      rw [runCandidates_cons_no_model p req c x rest hm] at h ⊢
      exact ih resp h
    | some cfg =>
      cases hp : p.providers cfg.provider with
      | none =>
        rw [runCandidates_cons_no_provider p req c x rest cfg hm hp] at h ⊢
        exact ih resp h
      | some prov =>
        cases hcall : prov.chatCompletion { req with model := cfg.name } with
        | error err =>
          rw [runCandidates_cons_fail p req c x rest cfg prov err hm hp hcall] at h ⊢
          obtain ⟨pre, a, hatt, hcnt, hres⟩ := ih resp h
          refine ⟨{ modelID := x, providerName := cfg.provider
                  , request := { req with model := cfg.name } } :: pre, a, ?_, hcnt, hres⟩
          simp [hatt]
        | ok respAd =>
          rw [runCandidates_cons_ok p req c x rest cfg prov respAd hm hp hcall] at h ⊢
          simp only [Except.ok.injEq] at h
          subst h
          exact ⟨[], _, rfl, rfl, cfg, hm, rfl, rfl⟩

/-- Every attempt recorded by the candidate loop comes from a catalog hit
for its candidate identifier, uses that config's provider, and carries the
original request with only the model field rewritten to the display name. -/
theorem runCandidates_mem_attempts (p : Proxy α ε) (req : ChatCompletionRequest α)
    (c : Counters) : ∀ (l : List String), ∀ a ∈ (runCandidates p req c l).attempts,
      ∃ cfg prov, p.cfg.models.find? (fun m => m.id == a.modelID) = some cfg ∧
        p.providers cfg.provider = some prov ∧
        a.providerName = cfg.provider ∧ a.request = { req with model := cfg.name } := by
  intro l
  induction l with
  | nil =>
    intro a ha
    rw [runCandidates_nil] at ha
    simp at ha
  | cons x rest ih =>
    intro a ha
    cases hm : p.cfg.models.find? (fun m => m.id == x) with
    | none =>
      rw [runCandidates_cons_no_model p req c x rest hm] at ha
      exact ih a ha
    | some cfg =>
      cases hp : p.providers cfg.provider with
      | none =>
        rw [runCandidates_cons_no_provider p req c x rest cfg hm hp] at ha
        exact ih a ha
      | some prov =>
        cases hcall : prov.chatCompletion { req with model := cfg.name } with
        | error err =>
          rw [runCandidates_cons_fail p req c x rest cfg prov err hm hp hcall] at ha
          rcases List.mem_cons.mp ha with rfl | ha2
          · exact ⟨cfg, prov, hm, hp, rfl, rfl⟩
          · exact ih a ha2
        | ok respAd =>
          rw [runCandidates_cons_ok p req c x rest cfg prov respAd hm hp hcall] at ha
          rcases List.mem_singleton.mp ha with rfl
          exact ⟨cfg, prov, hm, hp, rfl, rfl⟩

/-- The loop makes at most one adapter attempt per candidate. -/
theorem runCandidates_length_le (p : Proxy α ε) (req : ChatCompletionRequest α)
    (c : Counters) : ∀ (l : List String),
      (runCandidates p req c l).attempts.length ≤ l.length := by
  intro l
  induction l with
  | nil => simp [runCandidates_nil]
  | cons x rest ih =>
    cases hm : p.cfg.models.find? (fun m => m.id == x) with
    | none =>
      rw [runCandidates_cons_no_model p req c x rest hm]
      exact Nat.le_succ_of_le ih
    | some cfg =>
      cases hp : p.providers cfg.provider with
      | none =>
        rw [runCandidates_cons_no_provider p req c x rest cfg hm hp]
        exact Nat.le_succ_of_le ih
      | some prov =>
        cases hcall : prov.chatCompletion { req with model := cfg.name } with
        | error err =>
          rw [runCandidates_cons_fail p req c x rest cfg prov err hm hp hcall]
          simpa using Nat.succ_le_succ ih
        | ok respAd =>
          rw [runCandidates_cons_ok p req c x rest cfg prov respAd hm hp hcall]
          simp

/-- When every candidate on the list fails (whenever it resolves at all),
the loop attempts exactly the resolvable candidates, once each and in
order, leaves the counters untouched, and returns the generic exhaustion
error. -/
theorem runCandidates_all_fail (p : Proxy α ε) (req : ChatCompletionRequest α) (c : Counters) :
    ∀ (l : List String), (∀ x ∈ l, attemptFails p req x) →
      (runCandidates p req c l).result =
        .error (Errors.ErrInternal.withMessage "failed to get completion from any provider") ∧
      (runCandidates p req c l).counters = c ∧
      (runCandidates p req c l).attempts.map (fun a => a.modelID) =
        l.filter (fun x => (resolveModel p x).isSome) := by
  intro l
  induction l with
  | nil =>
    intro _
    exact ⟨rfl, rfl, rfl⟩
  | cons x rest ih =>
    intro hall
    have hrest : ∀ y ∈ rest, attemptFails p req y := fun y hy => hall y (List.mem_cons_of_mem x hy)
    cases hm : p.cfg.models.find? (fun m => m.id == x) with
    | none =>
      have hres : resolveModel p x = none := by simp [resolveModel, hm]
      rw [runCandidates_cons_no_model p req c x rest hm]
      obtain ⟨h1, h2, h3⟩ := ih hrest
      refine ⟨h1, h2, ?_⟩
      rw [h3, List.filter_cons_of_neg]
      simp [hres]
    | some cfg =>
      cases hp : p.providers cfg.provider with
      | none =>
        have hres : resolveModel p x = none := by simp [resolveModel, hm, hp]
        rw [runCandidates_cons_no_provider p req c x rest cfg hm hp]
        obtain ⟨h1, h2, h3⟩ := ih hrest
        refine ⟨h1, h2, ?_⟩
        rw [h3, List.filter_cons_of_neg]
        simp [hres]
      | some prov =>
        have hres : resolveModel p x = some (cfg, prov) := by simp [resolveModel, hm, hp]
        obtain ⟨e, hfail⟩ := hall x (List.mem_cons_self x rest) cfg prov hres
        rw [runCandidates_cons_fail p req c x rest cfg prov e hm hp hfail]
        obtain ⟨h1, h2, h3⟩ := ih hrest
        refine ⟨h1, h2, ?_⟩
        rw [List.filter_cons_of_pos]
        · simpa using h3
        · simp [hres]

/-- The dispatch outcome does not depend on the adapters' error values:
remapping every provider's error type leaves the whole observable result
(attempts, counters, caller-visible value) unchanged. -/
theorem runCandidates_mapError {ε2 : Type} (f : ε → ε2) (p : Proxy α ε)
    (req : ChatCompletionRequest α) (c : Counters) :
    ∀ (l : List String), runCandidates (p.mapError f) req c l = runCandidates p req c l := by
  intro l
  induction l with
  | nil => rfl
  | cons x rest ih =>
    have hcfg : (p.mapError f).cfg.models = p.cfg.models := rfl
    cases hm : p.cfg.models.find? (fun m => m.id == x) with
    | none =>
      rw [runCandidates_cons_no_model (p.mapError f) req c x rest (by rw [hcfg, hm]),
        runCandidates_cons_no_model p req c x rest hm]
      exact ih
    | some cfg =>
      cases hp : p.providers cfg.provider with
      | none =>
        have hp2 : (p.mapError f).providers cfg.provider = none := by
          simp [Proxy.mapError, hp]
        rw [runCandidates_cons_no_provider (p.mapError f) req c x rest cfg (by rw [hcfg, hm]) hp2,
          runCandidates_cons_no_provider p req c x rest cfg hm hp]
        exact ih
      | some prov =>
        have hp2 : (p.mapError f).providers cfg.provider = some (Provider.mapError f prov) := by
          simp [Proxy.mapError, hp]
        cases hcall : prov.chatCompletion { req with model := cfg.name } with
        | error err =>
          have hcall2 : (Provider.mapError f prov).chatCompletion { req with model := cfg.name } =
              .error (f err) := by
            simp [Provider.mapError, hcall, Except.mapError]
          rw [runCandidates_cons_fail (p.mapError f) req c x rest cfg _ (f err)
              (by rw [hcfg, hm]) hp2 hcall2,
            runCandidates_cons_fail p req c x rest cfg prov err hm hp hcall, ih]
        | ok respAd =>
          have hcall2 : (Provider.mapError f prov).chatCompletion { req with model := cfg.name } =
              .ok respAd := by
            simp [Provider.mapError, hcall, Except.mapError]
          rw [runCandidates_cons_ok (p.mapError f) req c x rest cfg _ respAd
              (by rw [hcfg, hm]) hp2 hcall2,
            runCandidates_cons_ok p req c x rest cfg prov respAd hm hp hcall]

end Lemmas

section Claims

variable {α ε : Type}

/-- Claim C1: for every request whose candidate list yields no successful
adapter call — each candidate either skipped for missing model/provider
configuration or failing at the adapter — dispatch attempts every
resolvable candidate exactly once, in configured order (the attempts'
candidate ids are exactly the resolvable sublist of
`req.model :: fallbacks`), returns the single generic exhaustion error
(whose message is the fixed literal below, aggregating no per-attempt
error), and leaves the usage counters unchanged. -/
theorem dispatch_exhaustion_attempts_each_resolvable_once
    (p : Proxy α ε) (req : ChatCompletionRequest α) (counters : Counters) (cfg0 : ModelConfig)
    (hfind : p.cfg.models.find? (fun m => m.id == req.model) = some cfg0)
    (hfail : ∀ x ∈ req.model :: cfg0.fallback, attemptFails p req x) :
    (chatCompletionsHandler p req counters).result =
      .error (Errors.ErrInternal.withMessage "failed to get completion from any provider") ∧
    (chatCompletionsHandler p req counters).attempts.map (fun a => a.modelID) =
      (req.model :: cfg0.fallback).filter (fun x => (resolveModel p x).isSome) ∧
    (chatCompletionsHandler p req counters).counters = counters := by
  rw [chatCompletionsHandler_found p req counters cfg0 hfind]
  obtain ⟨h1, h2, h3⟩ := runCandidates_all_fail p req counters (req.model :: cfg0.fallback) hfail
  exact ⟨h1, h3, h2⟩

/-- Claim C2: for every request whose primary model is in the catalog,
whose primary adapter errors, and whose first fallback resolves and
succeeds, dispatch returns the fallback adapter's response and exactly two
adapter invocations occur, in order: the primary model's provider first,
then the first fallback's provider. -/
theorem dispatch_primary_fails_first_fallback_succeeds
    (p : Proxy α ε) (req : ChatCompletionRequest α) (counters : Counters)
    (cfg0 : ModelConfig) (prov0 : Provider α ε) (e0 : ε) (f : String) (fbrest : List String)
    (cfg1 : ModelConfig) (prov1 : Provider α ε) (resp : ChatCompletionResponse)
    (hfind : p.cfg.models.find? (fun m => m.id == req.model) = some cfg0)
    (hprov0 : p.providers cfg0.provider = some prov0)
    (hfail : prov0.chatCompletion { req with model := cfg0.name } = .error e0)
    (hfb : cfg0.fallback = f :: fbrest)
    (hfind1 : p.cfg.models.find? (fun m => m.id == f) = some cfg1)
    (hprov1 : p.providers cfg1.provider = some prov1)
    (hok : prov1.chatCompletion { req with model := cfg1.name } = .ok resp) :
    (chatCompletionsHandler p req counters).result = .ok resp ∧
    (chatCompletionsHandler p req counters).attempts.map (fun a => a.providerName) =
      [cfg0.provider, cfg1.provider] ∧
    (chatCompletionsHandler p req counters).attempts.map (fun a => a.modelID) =
      [req.model, f] := by
  rw [chatCompletionsHandler_found p req counters cfg0 hfind, hfb,
    runCandidates_cons_fail p req counters req.model (f :: fbrest) cfg0 prov0 e0 hfind hprov0 hfail,
    runCandidates_cons_ok p req counters f fbrest cfg1 prov1 resp hfind1 hprov1 hok]
  exact ⟨rfl, rfl, rfl⟩

/-- Claim C3: for every request whose primary model resolves (catalog hit
and registered provider) and whose adapter returns a response, dispatch
returns exactly that response, the only adapter invocation is the primary
one (no fallback adapter is invoked), and the only side effect is the
usage-counter recording for that response. -/
theorem dispatch_primary_success
    (p : Proxy α ε) (req : ChatCompletionRequest α) (counters : Counters)
    (cfg0 : ModelConfig) (prov0 : Provider α ε) (resp : ChatCompletionResponse)
    (hfind : p.cfg.models.find? (fun m => m.id == req.model) = some cfg0)
    (hprov0 : p.providers cfg0.provider = some prov0)
    (hok : prov0.chatCompletion { req with model := cfg0.name } = .ok resp) :
    (chatCompletionsHandler p req counters).result = .ok resp ∧
    (chatCompletionsHandler p req counters).attempts =
      [{ modelID := req.model, providerName := cfg0.provider
       , request := { req with model := cfg0.name } }] ∧
    (chatCompletionsHandler p req counters).counters = counters.record resp cfg0.provider := by
  rw [chatCompletionsHandler_found p req counters cfg0 hfind,
    runCandidates_cons_ok p req counters req.model cfg0.fallback cfg0 prov0 resp hfind hprov0 hok]
  exact ⟨rfl, rfl, rfl⟩

/-- Claim C4: for every request whose model identifier is absent from the
catalog, dispatch returns the not-found error (status 404, a client
error), invokes no provider adapter, and changes no usage counter. -/
theorem dispatch_model_not_found
    (p : Proxy α ε) (req : ChatCompletionRequest α) (counters : Counters)
    (hfind : p.cfg.models.find? (fun m => m.id == req.model) = none) :
    (chatCompletionsHandler p req counters).result =
      .error (Errors.ErrNotFound.withMessage "model not found in config") ∧
    (chatCompletionsHandler p req counters).attempts = [] ∧
    (chatCompletionsHandler p req counters).counters = counters ∧
    (Errors.ErrNotFound.withMessage "model not found in config").status = 404 := by
  rw [chatCompletionsHandler_not_found p req counters hfind]
  exact ⟨rfl, rfl, rfl, rfl⟩

/-- Claim C5: on a successful dispatch, each of the three usage counters
at key (response model, provider of the succeeding attempt) increases by
exactly the corresponding token count when that count is positive and is
unchanged when it is not (in particular when it is zero); every other
(model, provider) key is unchanged — the pointwise `if` below says both at
once — and a failed dispatch changes no counter. -/
theorem dispatch_usage_counters
    (p : Proxy α ε) (req : ChatCompletionRequest α) (counters : Counters) :
    (∀ resp, (chatCompletionsHandler p req counters).result = .ok resp →
      ∃ pre a, (chatCompletionsHandler p req counters).attempts = pre ++ [a] ∧
        ((resp.usage.promptTokens > 0 →
            ∀ m q, (chatCompletionsHandler p req counters).counters.promptTokensTotal m q =
              (if m = resp.model ∧ q = a.providerName then
                counters.promptTokensTotal m q + resp.usage.promptTokens
               else counters.promptTokensTotal m q)) ∧
         (resp.usage.promptTokens ≤ 0 →
            (chatCompletionsHandler p req counters).counters.promptTokensTotal =
              counters.promptTokensTotal)) ∧
        ((resp.usage.completionTokens > 0 →
            ∀ m q, (chatCompletionsHandler p req counters).counters.completionTokensTotal m q =
              (if m = resp.model ∧ q = a.providerName then
                counters.completionTokensTotal m q + resp.usage.completionTokens
               else counters.completionTokensTotal m q)) ∧
         (resp.usage.completionTokens ≤ 0 →
            (chatCompletionsHandler p req counters).counters.completionTokensTotal =
              counters.completionTokensTotal)) ∧
        ((resp.usage.totalTokens > 0 →
            ∀ m q, (chatCompletionsHandler p req counters).counters.totalTokensTotal m q =
              (if m = resp.model ∧ q = a.providerName then
                counters.totalTokensTotal m q + resp.usage.totalTokens
               else counters.totalTokensTotal m q)) ∧
         (resp.usage.totalTokens ≤ 0 →
            (chatCompletionsHandler p req counters).counters.totalTokensTotal =
              counters.totalTokensTotal))) ∧
    (∀ e, (chatCompletionsHandler p req counters).result = .error e →
      (chatCompletionsHandler p req counters).counters = counters) := by
  constructor
  · intro resp h
    cases hm : p.cfg.models.find? (fun m => m.id == req.model) with
    | none =>
      rw [chatCompletionsHandler_not_found p req counters hm] at h
      simp at h
    | some cfg0 =>
      rw [chatCompletionsHandler_found p req counters cfg0 hm] at h ⊢
      obtain ⟨pre, a, hatt, hcnt, -⟩ :=
        runCandidates_ok_eq p req counters (req.model :: cfg0.fallback) resp h
      refine ⟨pre, a, hatt, ?_, ?_, ?_⟩ <;> rw [hcnt] <;> constructor
      · intro hpos m q
        simp [Counters.record, counterAdd, hpos]
      · intro hle
        simp [Counters.record, not_lt.mpr hle]
      · intro hpos m q
        simp [Counters.record, counterAdd, hpos]
      · intro hle
        simp [Counters.record, not_lt.mpr hle]
      · intro hpos m q
        simp [Counters.record, counterAdd, hpos]
      · intro hle
        simp [Counters.record, not_lt.mpr hle]
  · intro e h
    cases hm : p.cfg.models.find? (fun m => m.id == req.model) with
    | none =>
      rw [chatCompletionsHandler_not_found p req counters hm]
    | some cfg0 =>
      rw [chatCompletionsHandler_found p req counters cfg0 hm] at h ⊢
      exact (runCandidates_error_eq p req counters (req.model :: cfg0.fallback) e h).2

/-- Claim C6: every request handed to a provider adapter during dispatch
is a shallow copy of the caller's request whose model field equals the
resolved ModelConfig's display name, with all other fields (messages and
the abstracted remainder) equal to the original's; dispatch never returns
a modified request, so the caller's request value is unchanged. -/
theorem dispatch_attempt_request_shallow_copy
    (p : Proxy α ε) (req : ChatCompletionRequest α) (counters : Counters) :
    ∀ a ∈ (chatCompletionsHandler p req counters).attempts,
      ∃ cfg prov, p.cfg.models.find? (fun m => m.id == a.modelID) = some cfg ∧
        p.providers cfg.provider = some prov ∧
        a.providerName = cfg.provider ∧
        a.request = { req with model := cfg.name } ∧
        a.request.model = cfg.name ∧
        a.request.messages = req.messages ∧
        a.request.other = req.other := by
  intro a ha
  cases hm : p.cfg.models.find? (fun m => m.id == req.model) with
  | none =>
    rw [chatCompletionsHandler_not_found p req counters hm] at ha
    simp at ha
  | some cfg0 =>
    rw [chatCompletionsHandler_found p req counters cfg0 hm] at ha
    obtain ⟨cfg, prov, h1, h2, h3, h4⟩ :=
      runCandidates_mem_attempts p req counters (req.model :: cfg0.fallback) a ha
    exact ⟨cfg, prov, h1, h2, h3, h4, by rw [h4], by rw [h4], by rw [h4]⟩

/-- Claim C7: with catalog entry "X" falling back to itself and an adapter
that always fails, dispatching "X" terminates after exactly two adapter
attempts and returns the exhaustion error; and in general the attempts of
any dispatch whose primary model is found are bounded by the candidate
list, whose length is exactly 1 plus the configured fallback list's — no
deduplication and no re-expansion of fallbacks. -/
theorem dispatch_self_fallback_terminates
    (prov : Provider α ε) (req : ChatCompletionRequest α) (counters : Counters)
    (hreq : req.model = "X")
    (hfail : ∀ r, ∃ e, prov.chatCompletion r = .error e) :
    (chatCompletionsHandler (proxyX prov) req counters).attempts.length = 2 ∧
    (chatCompletionsHandler (proxyX prov) req counters).result =
      .error (Errors.ErrInternal.withMessage "failed to get completion from any provider") ∧
    (∀ (p2 : Proxy α ε) (req2 : ChatCompletionRequest α) (c2 : Counters) (cfg0 : ModelConfig),
      p2.cfg.models.find? (fun m => m.id == req2.model) = some cfg0 →
      (chatCompletionsHandler p2 req2 c2).attempts.length ≤ 1 + cfg0.fallback.length) := by
  have hfind : (proxyX prov).cfg.models.find? (fun m => m.id == req.model) = some cfgX := by
    simp [proxyX, cfgX, List.find?, hreq]
  have hfindX : (proxyX prov).cfg.models.find? (fun m => m.id == "X") = some cfgX := by
    simp [proxyX, cfgX, List.find?]
  have hprovX : (proxyX prov).providers cfgX.provider = some prov := by
    simp [proxyX, cfgX]
  obtain ⟨e1, hf1⟩ := hfail { req with model := cfgX.name }
  have hfb : cfgX.fallback = ["X"] := rfl
  rw [chatCompletionsHandler_found (proxyX prov) req counters cfgX hfind, hfb,
    runCandidates_cons_fail (proxyX prov) req counters req.model ["X"] cfgX prov e1
      hfind hprovX hf1,
    runCandidates_cons_fail (proxyX prov) req counters "X" [] cfgX prov e1
      hfindX hprovX hf1,
    runCandidates_nil]
  refine ⟨rfl, rfl, ?_⟩
  intro p2 req2 c2 cfg0 hm
  rw [chatCompletionsHandler_found p2 req2 c2 cfg0 hm]
  have h := runCandidates_length_le p2 req2 c2 (req2.model :: cfg0.fallback)
  simpa [Nat.add_comm] using h

/-- Claim C8: every dispatch call returns exactly one of a successful
response, the not-found error (status 404, a client error), or the generic
exhaustion error (status 500, a server error); and the whole observable
outcome is invariant under remapping the adapters' error values, so
neither terminal error can embed which upstream candidate failed or why. -/
theorem dispatch_result_trichotomy_and_error_opacity :
    (∀ (p : Proxy α ε) (req : ChatCompletionRequest α) (counters : Counters),
      (∃ resp, (chatCompletionsHandler p req counters).result = .ok resp) ∨
      (chatCompletionsHandler p req counters).result =
        .error (Errors.ErrNotFound.withMessage "model not found in config") ∨
      (chatCompletionsHandler p req counters).result =
        .error (Errors.ErrInternal.withMessage "failed to get completion from any provider")) ∧
    (Errors.ErrNotFound.withMessage "model not found in config").status = 404 ∧
    (Errors.ErrInternal.withMessage "failed to get completion from any provider").status = 500 ∧
    (∀ (ε2 : Type) (f : ε → ε2) (p : Proxy α ε) (req : ChatCompletionRequest α)
       (counters : Counters),
      chatCompletionsHandler (p.mapError f) req counters =
        chatCompletionsHandler p req counters) := by
  refine ⟨?_, rfl, rfl, ?_⟩
  · intro p req counters
    cases hm : p.cfg.models.find? (fun m => m.id == req.model) with
    | none =>
      right; left
      rw [chatCompletionsHandler_not_found p req counters hm]
    | some cfg0 =>
      rw [chatCompletionsHandler_found p req counters cfg0 hm]
      cases hr : (runCandidates p req counters (req.model :: cfg0.fallback)).result with
      | ok resp => exact Or.inl ⟨resp, rfl⟩
      | error e =>
        right; right
        rw [(runCandidates_error_eq p req counters (req.model :: cfg0.fallback) e hr).1]
  · intro ε2 f p req counters
    cases hm : p.cfg.models.find? (fun m => m.id == req.model) with
    | none =>
      rw [chatCompletionsHandler_not_found p req counters hm,
        chatCompletionsHandler_not_found (p.mapError f) req counters hm]
    | some cfg0 =>
      rw [chatCompletionsHandler_found p req counters cfg0 hm,
        chatCompletionsHandler_found (p.mapError f) req counters cfg0 hm,
        runCandidates_mapError f p req counters (req.model :: cfg0.fallback)]

/-- Claim C9: whenever the upstream returns a non-200 status or a body
that fails to decode, the HTTP-JSON adapter returns an error and no
response, and in the non-200 case the error message is exactly the
provider-wrapped message carrying the numeric status code and the raw
body. -/
theorem openai_compatible_non200_and_decode_failure
    (op : OpenAICompatibleProvider) (send : HttpRequestData → HttpOutcome)
    (encode : ChatCompletionRequest α → String)
    (decode : String → Except String ChatCompletionResponse)
    (req : ChatCompletionRequest α) :
    (∀ status body,
      send { method := "POST", url := op.apiUrl ++ "/v1/chat/completions"
           , headers := OpenAICompatibleProvider.headers op, body := encode req } =
        .response status body →
      status ≠ 200 →
      op.chatCompletion send encode decode req =
        .error (op.providerName ++ " chat completion failed: " ++
          ("API returned non-200 status: " ++ toString status ++ ", body: " ++ body))) ∧
    (∀ body e,
      send { method := "POST", url := op.apiUrl ++ "/v1/chat/completions"
           , headers := OpenAICompatibleProvider.headers op, body := encode req } =
        .response 200 body →
      decode body = .error e →
      op.chatCompletion send encode decode req =
        .error (op.providerName ++ " chat completion failed: " ++
          ("failed to decode response body: " ++ e))) := by
  constructor
  · intro status body hsend hstatus
    simp only [OpenAICompatibleProvider.chatCompletion, doRequest, hsend, if_pos hstatus]
  · intro body e hsend hdecode
    simp [OpenAICompatibleProvider.chatCompletion, doRequest, hsend, hdecode]

/-- Claim C10: the dummy adapter never fails and its usage is a function
of the request alone — prompt tokens are 5 per message, completion tokens
10, total their sum; consequently a zero-message request dispatched to the
dummy provider succeeds with zero prompt tokens, and the dispatcher's
counter step leaves the prompt counter untouched while adding 10 to the
completion and total counters at the succeeding (model, provider) key. -/
theorem dummy_provider_deterministic_usage (nowNano nowSec : Int) :
    (∀ req : ChatCompletionRequest α, ∃ resp,
      dummyChatCompletion (ε := ε) nowNano nowSec req = .ok resp ∧
      resp.usage.promptTokens = (req.messages.length : Int) * 5 ∧
      resp.usage.completionTokens = 10 ∧
      resp.usage.totalTokens = resp.usage.promptTokens + resp.usage.completionTokens ∧
      resp.model = req.model) ∧
    (∀ (p : Proxy α ε) (req : ChatCompletionRequest α) (counters : Counters)
       (cfg0 : ModelConfig),
      p.cfg.models.find? (fun m => m.id == req.model) = some cfg0 →
      p.providers cfg0.provider = some (dummyProvider nowNano nowSec) →
      req.messages = [] →
      ∃ resp, (chatCompletionsHandler p req counters).result = .ok resp ∧
        resp.usage.promptTokens = 0 ∧
        (chatCompletionsHandler p req counters).counters.promptTokensTotal =
          counters.promptTokensTotal ∧
        (chatCompletionsHandler p req counters).counters.completionTokensTotal
            resp.model cfg0.provider =
          counters.completionTokensTotal resp.model cfg0.provider + 10 ∧
        (chatCompletionsHandler p req counters).counters.totalTokensTotal
            resp.model cfg0.provider =
          counters.totalTokensTotal resp.model cfg0.provider + 10) := by
  constructor
  · intro req
    exact ⟨_, rfl, rfl, rfl, rfl, rfl⟩
  · intro p req counters cfg0 hfind hprov hmsgs
    have hok : (dummyProvider (α := α) (ε := ε) nowNano nowSec).chatCompletion
        { req with model := cfg0.name } =
        .ok { id := "dummy-cmpl-" ++ toString nowNano
            , object := "chat.completion"
            , created := nowSec
            , model := cfg0.name
            , choices :=
                [{ index := 0
                 , message := { role := "assistant"
                              , content := "Hello! This is a dummy response." }
                 , finishReason := "stop" }]
            , usage := { promptTokens := 0, completionTokens := 10, totalTokens := 10 } } := by
      simp [dummyProvider, dummyChatCompletion, hmsgs]
    rw [chatCompletionsHandler_found p req counters cfg0 hfind,
      runCandidates_cons_ok p req counters req.model cfg0.fallback cfg0
        (dummyProvider nowNano nowSec) _ hfind hprov hok]
    refine ⟨_, rfl, rfl, ?_, ?_, ?_⟩
    · simp [Counters.record]
    · simp [Counters.record, counterAdd]
    · simp [Counters.record, counterAdd]

end Claims


section Witnesses

/-- Witness instantiating the fallback-success claim at the concrete
two-model proxy whose primary provider fails. -/
theorem dispatch_primary_fails_first_fallback_succeeds_witness :
    (chatCompletionsHandler proxyFallback reqGpt zeroCounters).result = .ok respGem ∧
    (chatCompletionsHandler proxyFallback reqGpt zeroCounters).attempts.map
      (fun a => a.providerName) = [cfgGpt.provider, cfgGem.provider] ∧
    (chatCompletionsHandler proxyFallback reqGpt zeroCounters).attempts.map
      (fun a => a.modelID) = [reqGpt.model, "gemini-2.5-pro"] :=
  dispatch_primary_fails_first_fallback_succeeds proxyFallback reqGpt zeroCounters
    cfgGpt failProv "upstream failure" "gemini-2.5-pro" [] cfgGem (okProv respGem) respGem
    rfl rfl rfl rfl rfl rfl rfl

/-- Witness instantiating the primary-success claim at the concrete proxy
whose primary provider succeeds. -/
theorem dispatch_primary_success_witness :
    (chatCompletionsHandler proxyPrimaryOk reqGpt zeroCounters).result = .ok respOai ∧
    (chatCompletionsHandler proxyPrimaryOk reqGpt zeroCounters).attempts =
      [{ modelID := reqGpt.model, providerName := cfgGpt.provider
       , request := { reqGpt with model := cfgGpt.name } }] ∧
    (chatCompletionsHandler proxyPrimaryOk reqGpt zeroCounters).counters =
      zeroCounters.record respOai cfgGpt.provider :=
  dispatch_primary_success proxyPrimaryOk reqGpt zeroCounters cfgGpt (okProv respOai) respOai
    rfl rfl rfl

/-- Witness instantiating the not-found claim at a request for a model no
catalog entry carries. -/
theorem dispatch_model_not_found_witness :
    (chatCompletionsHandler proxyPrimaryOk reqUnknown zeroCounters).result =
      .error (Errors.ErrNotFound.withMessage "model not found in config") ∧
    (chatCompletionsHandler proxyPrimaryOk reqUnknown zeroCounters).attempts = [] ∧
    (chatCompletionsHandler proxyPrimaryOk reqUnknown zeroCounters).counters = zeroCounters ∧
    (Errors.ErrNotFound.withMessage "model not found in config").status = 404 :=
  dispatch_model_not_found proxyPrimaryOk reqUnknown zeroCounters rfl

/-- Witness instantiating the exhaustion claim at the concrete proxy in
which both providers fail. -/
theorem dispatch_exhaustion_attempts_each_resolvable_once_witness :
    (chatCompletionsHandler proxyAllFail reqGpt zeroCounters).result =
      .error (Errors.ErrInternal.withMessage "failed to get completion from any provider") ∧
    (chatCompletionsHandler proxyAllFail reqGpt zeroCounters).attempts.map
      (fun a => a.modelID) =
      (reqGpt.model :: cfgGpt.fallback).filter (fun x => (resolveModel proxyAllFail x).isSome) ∧
    (chatCompletionsHandler proxyAllFail reqGpt zeroCounters).counters = zeroCounters :=
  dispatch_exhaustion_attempts_each_resolvable_once proxyAllFail reqGpt zeroCounters cfgGpt
    rfl
    (by
      intro x hx cfg prov hres
      have hx2 : x = "gpt-4.1" ∨ x = "gemini-2.5-pro" := by
        simpa [reqGpt, cfgGpt] using hx
      rcases hx2 with rfl | rfl
      · rw [show resolveModel proxyAllFail "gpt-4.1" = some (cfgGpt, failProv) from rfl] at hres
        simp only [Option.some.injEq, Prod.mk.injEq] at hres
        obtain ⟨rfl, rfl⟩ := hres
        exact ⟨"upstream failure", rfl⟩
      · rw [show resolveModel proxyAllFail "gemini-2.5-pro" = some (cfgGem, failProv) from rfl]
          at hres
        simp only [Option.some.injEq, Prod.mk.injEq] at hres
        obtain ⟨rfl, rfl⟩ := hres
        exact ⟨"upstream failure", rfl⟩)

/-- Witness instantiating the usage-counter claim at the concrete
primary-success dispatch and its response. -/
theorem dispatch_usage_counters_witness :
    ∃ pre a, (chatCompletionsHandler proxyPrimaryOk reqGpt zeroCounters).attempts = pre ++ [a] ∧
      ((respOai.usage.promptTokens > 0 →
          ∀ m q,
            (chatCompletionsHandler proxyPrimaryOk reqGpt zeroCounters).counters.promptTokensTotal
                m q =
              (if m = respOai.model ∧ q = a.providerName then
                zeroCounters.promptTokensTotal m q + respOai.usage.promptTokens
               else zeroCounters.promptTokensTotal m q)) ∧
       (respOai.usage.promptTokens ≤ 0 →
          (chatCompletionsHandler proxyPrimaryOk reqGpt zeroCounters).counters.promptTokensTotal =
            zeroCounters.promptTokensTotal)) ∧
      ((respOai.usage.completionTokens > 0 →
          ∀ m q,
            (chatCompletionsHandler proxyPrimaryOk reqGpt
                zeroCounters).counters.completionTokensTotal m q =
              (if m = respOai.model ∧ q = a.providerName then
                zeroCounters.completionTokensTotal m q + respOai.usage.completionTokens
               else zeroCounters.completionTokensTotal m q)) ∧
       (respOai.usage.completionTokens ≤ 0 →
          (chatCompletionsHandler proxyPrimaryOk reqGpt
              zeroCounters).counters.completionTokensTotal =
            zeroCounters.completionTokensTotal)) ∧
      ((respOai.usage.totalTokens > 0 →
          ∀ m q,
            (chatCompletionsHandler proxyPrimaryOk reqGpt zeroCounters).counters.totalTokensTotal
                m q =
              (if m = respOai.model ∧ q = a.providerName then
                zeroCounters.totalTokensTotal m q + respOai.usage.totalTokens
               else zeroCounters.totalTokensTotal m q)) ∧
       (respOai.usage.totalTokens ≤ 0 →
          (chatCompletionsHandler proxyPrimaryOk reqGpt zeroCounters).counters.totalTokensTotal =
            zeroCounters.totalTokensTotal)) :=
  (dispatch_usage_counters proxyPrimaryOk reqGpt zeroCounters).1 respOai rfl

/-- Witness instantiating the shallow-copy claim at the one attempt the
primary-success dispatch records. -/
theorem dispatch_attempt_request_shallow_copy_witness :
    ∃ cfg prov,
      proxyPrimaryOk.cfg.models.find? (fun m => m.id == attemptGpt.modelID) = some cfg ∧
      proxyPrimaryOk.providers cfg.provider = some prov ∧
      attemptGpt.providerName = cfg.provider ∧
      attemptGpt.request = { reqGpt with model := cfg.name } ∧
      attemptGpt.request.model = cfg.name ∧
      attemptGpt.request.messages = reqGpt.messages ∧
      attemptGpt.request.other = reqGpt.other :=
  dispatch_attempt_request_shallow_copy proxyPrimaryOk reqGpt zeroCounters attemptGpt
    (by
      rw [show (chatCompletionsHandler proxyPrimaryOk reqGpt zeroCounters).attempts =
        [attemptGpt] from rfl]
      exact List.mem_singleton.mpr rfl)

/-- Witness instantiating the self-referential-fallback claim at an
always-failing provider. -/
theorem dispatch_self_fallback_terminates_witness :
    (chatCompletionsHandler (proxyX failProv)
      ({ model := "X", messages := [], other := () } : ChatCompletionRequest Unit)
      zeroCounters).attempts.length = 2 ∧
    (chatCompletionsHandler (proxyX failProv)
      ({ model := "X", messages := [], other := () } : ChatCompletionRequest Unit)
      zeroCounters).result =
      .error (Errors.ErrInternal.withMessage "failed to get completion from any provider") :=
  ⟨(dispatch_self_fallback_terminates failProv
      { model := "X", messages := [], other := () } zeroCounters rfl
      (fun _ => ⟨"upstream failure", rfl⟩)).1,
   (dispatch_self_fallback_terminates failProv
      { model := "X", messages := [], other := () } zeroCounters rfl
      (fun _ => ⟨"upstream failure", rfl⟩)).2.1⟩

/-- Witness instantiating the HTTP-adapter failure claim at a 500 upstream
and at a 200 upstream with an undecodable body. -/
theorem openai_compatible_non200_and_decode_failure_witness :
    opTest.chatCompletion send500 encodeTrivial decodeFails reqGpt =
      .error (opTest.providerName ++ " chat completion failed: " ++
        ("API returned non-200 status: " ++ toString (500 : Nat) ++ ", body: " ++
          "Internal Server Error")) ∧
    opTest.chatCompletion send200Bad encodeTrivial decodeFails reqGpt =
      .error (opTest.providerName ++ " chat completion failed: " ++
        ("failed to decode response body: " ++ "invalid character")) :=
  ⟨(openai_compatible_non200_and_decode_failure opTest send500 encodeTrivial decodeFails
      reqGpt).1 500 "Internal Server Error" rfl (by decide),
   (openai_compatible_non200_and_decode_failure opTest send200Bad encodeTrivial decodeFails
      reqGpt).2 "not json" "invalid character" rfl rfl⟩

/-- Witness instantiating the dummy-provider claim at the zero-message
request dispatched through the dummy proxy. -/
theorem dummy_provider_deterministic_usage_witness :
    ∃ resp, (chatCompletionsHandler proxyDummy reqDummy zeroCounters).result = .ok resp ∧
      resp.usage.promptTokens = 0 ∧
      (chatCompletionsHandler proxyDummy reqDummy zeroCounters).counters.promptTokensTotal =
        zeroCounters.promptTokensTotal ∧
      (chatCompletionsHandler proxyDummy reqDummy zeroCounters).counters.completionTokensTotal
          resp.model cfgDummy.provider =
        zeroCounters.completionTokensTotal resp.model cfgDummy.provider + 10 ∧
      (chatCompletionsHandler proxyDummy reqDummy zeroCounters).counters.totalTokensTotal
          resp.model cfgDummy.provider =
        zeroCounters.totalTokensTotal resp.model cfgDummy.provider + 10 :=
  (dummy_provider_deterministic_usage 0 0).2 proxyDummy reqDummy zeroCounters cfgDummy
    rfl rfl rfl

end Witnesses

end LlmGateway
